import Mathlib

/-!
Verification development for a Telegram signal-relay bot (`index.js`).

The embedding models the dynamically-typed JavaScript values the webhook
handler and command handlers manipulate, the persisted configuration, and
the observable effects (outbound channel sends, HTTP responses, chat
replies) as pure Lean data.  Every definition mirrors a concrete place in
`index.js`; the few platform primitives the code calls (`JSON.parse` on an
arbitrary string) are taken as parameters.

String primitives (`toUpperCase`, `substring`, `includes`, `split`) are
given as structural functions over the character list of a `String`, so
that all of them evaluate inside the kernel.
-/

/-- ASCII upper-casing of one character (`String.prototype.toUpperCase`
restricted to the ASCII range every claim exercises). -/
def jsUpperChar (c : Char) : Char :=
  if 'a' ≤ c ∧ c ≤ 'z' then Char.ofNat (c.toNat - 32) else c

/-- `s.toUpperCase()`. -/
def jsUpper (s : String) : String :=
  ⟨s.data.map jsUpperChar⟩

/-- `s.substring(0, n)`: the first `n` characters of `s`. -/
def jsTake (s : String) (n : Nat) : String :=
  ⟨s.data.take n⟩

/-- Whether `p` is a prefix of `s` (on character lists). -/
def startsWithList : List Char → List Char → Bool
  | [], _ => true
  | _ :: _, [] => false
  | a :: p, b :: s => a == b && startsWithList p s

/-- Whether `p` occurs as a contiguous sublist of `s`. -/
def hasSubList (p : List Char) : List Char → Bool
  | [] => startsWithList p []
  | c :: rest => startsWithList p (c :: rest) || hasSubList p rest

/-- JavaScript `s.includes(pat)` (substring test). -/
def jsIncludes (s pat : String) : Bool :=
  hasSubList pat.data s.data

/-- JavaScript `s.split(sep)` for a one-character separator, as the code
uses with `split(' ')`: splitting `""` yields `[""]`, and consecutive
separators yield empty fields. -/
def splitCharAux (sep : Char) : List Char → List Char → List String
  | [], acc => [⟨acc.reverse⟩]
  | c :: rest, acc =>
    if c == sep then ⟨acc.reverse⟩ :: splitCharAux sep rest []
    else splitCharAux sep rest (c :: acc)

/-- `s.split(sep)` for a one-character separator. -/
def jsSplit (s : String) (sep : Char) : List String :=
  splitCharAux sep s.data []

/-- Join a list of strings with a separator (used to model
`Array.prototype.join` inside `JSON.stringify`/string coercion). -/
def joinWith (sep : String) : List String → String
  | [] => ""
  | [s] => s
  | s :: rest => s ++ sep ++ joinWith sep rest

/-- A JavaScript runtime value, as far as the bot's handlers can observe
one.  `undefined` is the result of reading an absent property.  Numbers are
modelled as integers (every claim-relevant payload uses strings or small
integers; no NaN/float behaviour is exercised). -/
inductive JSValue where
  | undefined : JSValue
  | null : JSValue
  | bool (b : Bool) : JSValue
  | num (n : Int) : JSValue
  | str (s : String) : JSValue
  | obj (fields : List (String × JSValue)) : JSValue
  | arr (elems : List JSValue) : JSValue

/-- JavaScript truthiness: `undefined`, `null`, `false`, `0` and `""` are
falsy, everything else (including every object and array) is truthy. -/
def truthy : JSValue → Bool
  | .undefined => false
  | .null => false
  | .bool b => b
  | .num n => n != 0
  | .str s => s != ""
  | .obj _ => true
  | .arr _ => true

/-- Property read `v[k]` for the fixed, non-numeric field names the bot
uses (`ticker`, `direction`, `sl`, ...): on a plain object the first
binding wins, on every other value the result is `undefined`. -/
def jsGet : JSValue → String → JSValue
  | .obj fields, k =>
    match fields.find? (fun p => p.1 == k) with
    | some p => p.2
    | none => .undefined
  | _, _ => .undefined

/-- JavaScript `a || b`: `a` when truthy, otherwise `b`. -/
def jsOr (a b : JSValue) : JSValue :=
  if truthy a then a else b

/-- JavaScript strict equality `v === s` against a string literal. -/
def jsStrictEqStr : JSValue → String → Bool
  | .str s, t => s == t
  | _, _ => false

/-- String coercion as performed by a template literal; arrays join their
elements with commas, plain objects display as `[object Object]`. -/
def jsToDisplayString : JSValue → String
  | .undefined => "undefined"
  | .null => "null"
  | .bool b => if b then "true" else "false"
  | .num n => toString n
  | .str s => s
  | .obj _ => "[object Object]"
  | .arr elems => joinWith "," (jsDisplayList elems)
where
  jsDisplayList : List JSValue → List String
  | [] => []
  | v :: rest => jsToDisplayString v :: jsDisplayList rest

/-- JSON string escaping for the characters the bot could realistically
round-trip (quote, backslash and common control characters). -/
def escapeJson (s : String) : String :=
  s.data.foldl (fun acc c =>
    acc ++ (if c = '"' then "\\\""
            else if c = '\\' then "\\\\"
            else if c = '\n' then "\\n"
            else if c = '\t' then "\\t"
            else if c = '\r' then "\\r"
            else String.singleton c)) ""

/-- `JSON.stringify`: `none` exactly when the value is `undefined` (where
JavaScript returns the value `undefined` instead of a string).  Object
fields bound to `undefined` are omitted; array elements that are
`undefined` serialise as `null`. -/
def jsonStringify : JSValue → Option String
  | .undefined => none
  | .null => some "null"
  | .bool b => some (if b then "true" else "false")
  | .num n => some (toString n)
  | .str s => some ("\"" ++ escapeJson s ++ "\"")
  | .obj fields => some ("\x7b" ++ joinWith "," (stringifyFields fields) ++ "\x7d")
  | .arr elems => some ("[" ++ joinWith "," (stringifyElems elems) ++ "]")
where
  stringifyFields : List (String × JSValue) → List String
  | [] => []
  | (k, v) :: rest =>
    match jsonStringify v with
    | none => stringifyFields rest
    | some sv => ("\"" ++ escapeJson k ++ "\":" ++ sv) :: stringifyFields rest
  stringifyElems : List JSValue → List String
  | [] => []
  | v :: rest => ((jsonStringify v).getD "null") :: stringifyElems rest

/-- `Object.keys`: throws a `TypeError` on `undefined`/`null`, enumerates
own keys of objects, index strings for arrays and strings, and nothing for
other primitives. -/
def objectKeys : JSValue → Except String (List String)
  | .undefined => .error "Cannot convert undefined or null to object"
  | .null => .error "Cannot convert undefined or null to object"
  | .obj fields => .ok (fields.map (·.1))
  | .arr elems => .ok ((List.range elems.length).map toString)
  | .str s => .ok ((List.range s.data.length).map toString)
  | _ => .ok []

/-- The persisted configuration (`config.json`): the global forwarding
switch and the ordered list of destination channel identifiers. -/
structure Config where
  enabled : Bool
  channels : List String
deriving DecidableEq, Repr

/-- Which of the three `bot.telegram.sendMessage` call sites of the webhook
handler issued a send: the unconditional raw-debug loop (line 140), the
formatted-signal loop (line 189), or the best-effort error-notice loop in
the catch block (line 205). -/
inductive SendKind where
  | rawDebug : SendKind
  | formatted : SendKind
  | errorNote : SendKind
deriving DecidableEq, Repr

/-- One outbound send attempt: destination channel, originating call site,
and the message text handed to the transport. -/
structure Send where
  channel : String
  kind : SendKind
  text : String
deriving DecidableEq, Repr

/-- The HTTP response of `POST /webhook`: either
`200 \x7bsuccess:true, message\x7d` or
`500 \x7bsuccess:false, error:"Internal Error"\x7d`. -/
inductive HttpResponse where
  | success (message : String) : HttpResponse
  | internalError : HttpResponse
deriving DecidableEq, Repr

/-- HTTP status code of a response. -/
def HttpResponse.statusCode : HttpResponse → Nat
  | .success _ => 200
  | .internalError => 500

/-- The `success` boolean of the JSON response body. -/
def HttpResponse.successFlag : HttpResponse → Bool
  | .success _ => true
  | .internalError => false

/-! ## The webhook pipeline (`app.post('/webhook')`, index.js lines 119-212) -/

/-- Line 124: `req.rawBody || (typeof req.body === 'string' ? req.body :
JSON.stringify(req.body))`.  `rawBodyField` is the raw buffer captured by
the JSON body-parser when one ran (`none` when it did not); `body` is
`req.body`.  The result is `none` exactly when the expression evaluates to
the value `undefined` (no captured raw body and `req.body` undefined). -/
def effectiveRawBody (rawBodyField : Option String) (body : JSValue) : Option String :=
  let fallback : Option String :=
    match body with
    | .str s => some s
    | v => jsonStringify v
  match rawBodyField with
  | some s => if s != "" then some s else fallback
  | none => fallback

/-- Line 138: the raw-debug notification text, with the raw body truncated
to its first 800 characters. -/
def rawMessage (rawBody : String) : String :=
  "📥 *WEBHOOK RECEIVED*\n\n```\n" ++ jsTake rawBody 800 ++ "\n```"

/-- Lines 146-159: recover a structured payload from `req.body`.  A string
body is decoded with `JSON.parse` (the platform decoder is a parameter;
`none` models a parse exception, which is caught and logged).  A truthy
object-typed body is used directly.  Everything else leaves the initial
`data = \x7b\x7d, parseSuccess = false`. -/
def parseBody (jsonParse : String → Option JSValue) (body : JSValue) : JSValue × Bool :=
  match body with
  | .str s =>
    match jsonParse s with
    | some v => (v, true)
    | none => (.obj [], false)
  | .obj fields => (.obj fields, true)
  | .arr elems => (.arr elems, true)
  | _ => (.obj [], false)

/-- Line 163: `data.ticker || data.symbol || 'Unknown'`. -/
def resolveTicker (data : JSValue) : JSValue :=
  jsOr (jsGet data "ticker") (jsOr (jsGet data "symbol") (.str "Unknown"))

/-- Lines 165-170: the `direction` normalisation.  When `data.direction`
is truthy the code calls `.toUpperCase()` on it, which throws a
`TypeError` unless the value is a string (the error text is V8's). -/
def normalizeDirection (v : JSValue) : Except String String :=
  if truthy v then
    match v with
    | .str s =>
      .ok (if jsIncludes (jsUpper s) "BUY" then "Buy"
           else if jsIncludes (jsUpper s) "SELL" then "Sell"
           else s)
    | _ => .error "data.direction.toUpperCase is not a function"
  else
    .ok "Signal"

/-- Line 172: `data.entry_price || data.price || data.close || 'N/A'`. -/
def resolveEntry (data : JSValue) : JSValue :=
  jsOr (jsGet data "entry_price") (jsOr (jsGet data "price") (jsOr (jsGet data "close") (.str "N/A")))

/-- Line 173: `data.sl || data.stop_loss || 'N/A'`. -/
def resolveSl (data : JSValue) : JSValue :=
  jsOr (jsGet data "sl") (jsOr (jsGet data "stop_loss") (.str "N/A"))

/-- Line 174: `data.tp1 || data.take_profit || 'N/A'`. -/
def resolveTp1 (data : JSValue) : JSValue :=
  jsOr (jsGet data "tp1") (jsOr (jsGet data "take_profit") (.str "N/A"))

/-- Line 175: `data.contracts || 'N/A'`. -/
def resolveContracts (data : JSValue) : JSValue :=
  jsOr (jsGet data "contracts") (.str "N/A")

/-- Line 176: `data.strategy || 'N/A'`. -/
def resolveStrategy (data : JSValue) : JSValue :=
  jsOr (jsGet data "strategy") (.str "N/A")

/-- Line 177: `data.timeframe || 'N/A'`. -/
def resolveTimeframe (data : JSValue) : JSValue :=
  jsOr (jsGet data "timeframe") (.str "N/A")

/-- Condition guarding each optional line (e.g. line 186:
`sl !== 'N/A' && sl !== ''`). -/
def lineIncluded (v : JSValue) : Bool :=
  !(jsStrictEqStr v "N/A") && !(jsStrictEqStr v "")

/-- Lines 181-187: the formatted message, given the payload and the
already-normalised `direction` string. -/
def formattedMessage (data : JSValue) (dir : String) : String :=
  let sl := resolveSl data
  let tp1 := resolveTp1 data
  let contracts := resolveContracts data
  let strategy := resolveStrategy data
  let timeframe := resolveTimeframe data
  let m := "🚨 *FORMATTED SIGNAL*\n"
  let m := m ++ "📈 *" ++ jsUpper dir ++ " " ++ jsToDisplayString (resolveTicker data)
             ++ " @ " ++ jsToDisplayString (resolveEntry data) ++ "*\n"
  let m := if lineIncluded strategy then m ++ "📊 *Strategy:* `" ++ jsToDisplayString strategy ++ "`\n" else m
  let m := if lineIncluded timeframe then m ++ "⏰ *Timeframe:* `" ++ jsToDisplayString timeframe ++ "`\n" else m
  let m := if lineIncluded contracts then m ++ "📦 *Contracts:* `" ++ jsToDisplayString contracts ++ "`\n" else m
  let m := if lineIncluded sl then m ++ "🛑 *SL:* `" ++ jsToDisplayString sl ++ "`\n" else m
  let m := if lineIncluded tp1 then m ++ "🎯 *TP1:* `" ++ jsToDisplayString tp1 ++ "`" else m
  m

/-- Line 180: the formatted message is only sent when at least one of the
identifying fields is truthy. -/
def meaningfulData (data : JSValue) : Bool :=
  truthy (jsGet data "ticker") || truthy (jsGet data "direction") || truthy (jsGet data "symbol")

/-- Lines 202-207: the catch block's best-effort error notice to every
configured channel. -/
def catchSends (config : Config) (errMsg : String) : List Send :=
  config.channels.map (fun ch => ⟨ch, .errorNote, "❌ *WEBHOOK ERROR*\n\n" ++ errMsg⟩)

/-- Lines 162-194: the structured-interpretation step, on the outcome of
`parseBody`.  Produces the formatted send attempts, or the message of the
exception it throws (`Object.keys` on `null`, or `.toUpperCase()` on a
truthy non-string `direction`). -/
def structuredSends (config : Config) (data : JSValue) (parseSuccess : Bool) :
    Except String (List Send) :=
  if parseSuccess then
    match objectKeys data with
    | .error e => .error e
    | .ok keys =>
      if keys.length > 0 then
        match normalizeDirection (jsGet data "direction") with
        | .error e => .error e
        | .ok dir =>
          if meaningfulData data then
            .ok (config.channels.map (fun ch => ⟨ch, SendKind.formatted, formattedMessage data dir⟩))
          else
            .ok []
      else
        .ok []
  else
    .ok []

/-- `app.post('/webhook')` (lines 119-212), as a function from the loaded
configuration and the request to the list of send attempts (in order) and
the HTTP response.  `jsonParse` is the platform JSON decoder used on
string bodies; `rawBodyField` is `req.rawBody`; `body` is `req.body`. -/
def webhookHandler (config : Config) (jsonParse : String → Option JSValue)
    (rawBodyField : Option String) (body : JSValue) : List Send × HttpResponse :=
  if !config.enabled then
    ([], .success "Bot is disabled")
  else
    match effectiveRawBody rawBodyField body with
    | none =>
      -- `rawBody` is the value `undefined`: line 138's `.substring` throws.
      (catchSends config "Cannot read properties of undefined (reading 'substring')", .internalError)
    | some rawBody =>
      let rawSends := config.channels.map (fun ch => ⟨ch, SendKind.rawDebug, rawMessage rawBody⟩)
      match structuredSends config (parseBody jsonParse body).1 (parseBody jsonParse body).2 with
      | .ok formattedSends =>
        (rawSends ++ formattedSends,
         .success ("Signal sent to " ++ toString config.channels.length ++ " channels"))
      | .error e =>
        (rawSends ++ catchSends config e, .internalError)

/-! ## The command pipeline (`isAdmin` and `bot.command(...)`, lines 37-102) -/

/-- The five admin commands registered on the bot. -/
inductive Cmd where
  | on : Cmd
  | off : Cmd
  | addchannel : Cmd
  | removechannel : Cmd
  | list : Cmd
deriving DecidableEq, Repr

/-- Outcome of delivering one command update: the persisted store after
the handler ran (`none` models an unreadable `config.json`, i.e.
`getConfig` throwing), the replies sent to the sender in order, and
whether the handler threw an uncaught exception — from a failing
`getConfig` (line 33) or a failing `saveConfig` (line 34) — in which case
no reply was produced by this code; the framework only logs it. -/
structure CmdResult where
  store : Option Config
  replies : List String
  threw : Bool
deriving DecidableEq, Repr

/-- Line 43: the rejection reply of the `isAdmin` middleware. -/
def authRejection : String := "🚫 You are not authorized to use this command."

/-- Lines 37-102: the `isAdmin` middleware followed by the registered
command handler.  `adminIds` is the `ADMIN_CHAT_IDS` allow-list, `userId`
the string-normalised sender id, `text` the full message text (used by
`addchannel`/`removechannel` for their argument), and `store` the current
persisted configuration (`none` when `config.json` cannot be read, so
`getConfig()` throws).  `saveOk` is whether `fs.writeFileSync` in
`saveConfig` (line 34) succeeds when the handler reaches it: when it
throws, the handler dies after its in-memory mutation but before
`ctx.reply`, and the persisted file keeps its prior contents (writes are
whole-file replacements).  `/list`, the usage-hint paths and the
already-in-list branch of `/addchannel` never call `saveConfig`. -/
def runCommand (adminIds : List String) (userId : String) (cmd : Cmd) (text : String)
    (store : Option Config) (saveOk : Bool) : CmdResult :=
  if adminIds.contains userId then
    match cmd with
    | .on =>
      match store with
      | none => ⟨none, [], true⟩
      | some config =>
        if saveOk then
          ⟨some { config with enabled := true },
           ["🟢 Bot is now ON. Signals will be forwarded."], false⟩
        else
          ⟨some config, [], true⟩
    | .off =>
      match store with
      | none => ⟨none, [], true⟩
      | some config =>
        if saveOk then
          ⟨some { config with enabled := false },
           ["🔴 Bot is now OFF. Signals are paused."], false⟩
        else
          ⟨some config, [], true⟩
    | .addchannel =>
      let args := jsSplit text ' '
      if args.length < 2 then
        ⟨store, ["Usage: /addchannel <channel_id>"], false⟩
      else
        let channelId := args.getD 1 ""
        match store with
        | none => ⟨none, [], true⟩
        | some config =>
          if !(config.channels.contains channelId) then
            if saveOk then
              ⟨some { config with channels := config.channels ++ [channelId] },
               ["✅ Channel " ++ channelId ++ " added."], false⟩
            else
              ⟨some config, [], true⟩
          else
            ⟨some config, ["ℹ️ Channel already in list."], false⟩
    | .removechannel =>
      let args := jsSplit text ' '
      if args.length < 2 then
        ⟨store, ["Usage: /removechannel <channel_id>"], false⟩
      else
        let channelId := args.getD 1 ""
        match store with
        | none => ⟨none, [], true⟩
        | some config =>
          if saveOk then
            ⟨some { config with channels := config.channels.filter (fun id => id != channelId) },
             ["❌ Channel " ++ channelId ++ " removed."], false⟩
          else
            ⟨some config, [], true⟩
    | .list =>
      match store with
      | none => ⟨none, [], true⟩
      | some config =>
        let status := if config.enabled then "🟢 ON" else "🔴 OFF"
        let msg := "📊 *Bot Status:* " ++ status ++ "\n\n*Channels:*"
        let msg :=
          if config.channels.length = 0 then msg ++ "\nNone"
          else config.channels.foldl (fun m id => m ++ "\n- `" ++ id ++ "`") msg
        ⟨some config, [msg], false⟩
  else
    ⟨store, [authRejection], false⟩

/-! ## Spec-side resolution semantics (for comparison with the code's) -/

/-- Whether a property read produced a defined value, i.e. the field is
present on the payload. -/
def isDefined : JSValue → Bool
  | .undefined => false
  | _ => true

/-- Resolution as the spec sentence words it: "first present wins" — the
first key of the chain that is present on the payload supplies the value,
and the default applies only when every key is absent. -/
def specResolveFirstPresent (data : JSValue) (keys : List String) (dflt : String) : JSValue :=
  match keys with
  | [] => .str dflt
  | k :: rest =>
    if isDefined (jsGet data k) then jsGet data k
    else specResolveFirstPresent data rest dflt

/-- Resolution as the code actually behaves: the first key of the chain
whose value is truthy supplies the value; falsy values (absent, `""`, `0`,
`false`, `null`) fall through, and the default applies when every
alternative is falsy. -/
def specResolveFirstTruthy (data : JSValue) (keys : List String) (dflt : String) : JSValue :=
  match keys with
  | [] => .str dflt
  | k :: rest =>
    if truthy (jsGet data k) then jsGet data k
    else specResolveFirstTruthy data rest dflt

/-! ## Claim theorems -/

/-- C1: for every configuration with `enabled=false`, a POST to `/webhook`
performs no outbound send to any channel and responds HTTP 200 with the
disabled-skip body; the check precedes all formatting work, so the result
is the same for every body — including bodies whose formatting would
throw. -/
theorem C1_disabled_skips_broadcast (config : Config) (jsonParse : String → Option JSValue)
    (rawBodyField : Option String) (body : JSValue) (h : config.enabled = false) :
    webhookHandler config jsonParse rawBodyField body = ([], .success "Bot is disabled") ∧
    (webhookHandler config jsonParse rawBodyField body).2.statusCode = 200 := by
  unfold webhookHandler
  rw [h]
  exact ⟨rfl, rfl⟩

/-- Witness for C1, at a disabled configuration and a payload whose
formatting would throw (truthy non-string `direction`). -/
theorem C1_disabled_skips_broadcast_witness :
    (Config.mk false ["c1"]).enabled = false ∧
    (webhookHandler ⟨false, ["c1"]⟩ (fun _ => none) (some "raw") (.obj [("direction", .num 1)])
        = ([], .success "Bot is disabled") ∧
     (webhookHandler ⟨false, ["c1"]⟩ (fun _ => none) (some "raw") (.obj [("direction", .num 1)])).2.statusCode
        = 200) :=
  ⟨rfl, C1_disabled_skips_broadcast ⟨false, ["c1"]⟩ (fun _ => none) (some "raw")
      (.obj [("direction", .num 1)]) rfl⟩

/-- C2: a sender not on the admin allow-list never reaches any command
handler: for every command, message text and store-write outcome the
persisted configuration is returned unchanged (even an unreadable store is
left untouched, because the gate runs before `getConfig`), the only reply
is the rejection notice, and nothing is thrown. -/
theorem C2_unauthorized_no_mutation (adminIds : List String) (userId : String) (cmd : Cmd)
    (text : String) (store : Option Config) (saveOk : Bool)
    (h : adminIds.contains userId = false) :
    runCommand adminIds userId cmd text store saveOk = ⟨store, [authRejection], false⟩ := by
  unfold runCommand
  rw [h]
  rfl

/-- Witness for C2: a non-allow-listed sender issuing `/addchannel`. -/
theorem C2_unauthorized_no_mutation_witness :
    (["111"].contains "222") = false ∧
    runCommand ["111"] "222" .addchannel "/addchannel -100x" (some ⟨true, ["a"]⟩) true
      = ⟨some ⟨true, ["a"]⟩, [authRejection], false⟩ :=
  ⟨by decide, C2_unauthorized_no_mutation ["111"] "222" .addchannel "/addchannel -100x"
      (some ⟨true, ["a"]⟩) true (by decide)⟩

/-- C5 counterexample: the claim says a present-but-empty `sl` field wins
over `stop_loss`; in the code `||` coalesces on truthiness, so the empty
string falls through and `stop_loss` supplies the value. -/
theorem C5_counterexample :
    resolveSl (.obj [("sl", .str ""), ("stop_loss", .str "60000")]) = .str "60000" ∧
    specResolveFirstPresent (.obj [("sl", .str ""), ("stop_loss", .str "60000")])
        ["sl", "stop_loss"] "N/A" = .str "" ∧
    JSValue.str "60000" ≠ JSValue.str "" := by
  refine ⟨rfl, rfl, ?_⟩
  intro h
  simp at h

/-- C5 (amended): every fallback chain of the formatter resolves by
"first truthy wins" — falsy values (absent field, empty string, `0`,
`false`, `null`) fall through to the next alternative, and the stated
default applies when every alternative is falsy. -/
theorem C5_amended_first_truthy_wins (data : JSValue) :
    resolveTicker data = specResolveFirstTruthy data ["ticker", "symbol"] "Unknown" ∧
    resolveEntry data = specResolveFirstTruthy data ["entry_price", "price", "close"] "N/A" ∧
    resolveSl data = specResolveFirstTruthy data ["sl", "stop_loss"] "N/A" ∧
    resolveTp1 data = specResolveFirstTruthy data ["tp1", "take_profit"] "N/A" ∧
    resolveContracts data = specResolveFirstTruthy data ["contracts"] "N/A" ∧
    resolveStrategy data = specResolveFirstTruthy data ["strategy"] "N/A" ∧
    resolveTimeframe data = specResolveFirstTruthy data ["timeframe"] "N/A" :=
  ⟨rfl, rfl, rfl, rfl, rfl, rfl, rfl⟩

/-- The scenario payload of C6:
`\x7b"ticker":"BTCUSD","direction":"strategy.entrylong","sl":"60000"\x7d`. -/
def payloadEntrylong : JSValue :=
  .obj [("ticker", .str "BTCUSD"), ("direction", .str "strategy.entrylong"), ("sl", .str "60000")]

/-- The formatted message the handler produces for that payload. -/
def msgEntrylong : String :=
  formattedMessage payloadEntrylong "strategy.entrylong"

/-- C6: for the scenario payload with one configured channel and
`enabled=true`, the handler issues the raw-debug send plus one formatted
send; the direction is passed through literally (`strategy.entrylong`,
not mapped to `Buy`), the message never contains `Buy BTCUSD`, it carries
an SL line with `60000`, and it has no TP1 line. -/
theorem C6_entrylong_passthrough :
    (webhookHandler ⟨true, ["-1001"]⟩ (fun _ => none) (some "raw") payloadEntrylong).1
      = [⟨"-1001", .rawDebug, rawMessage "raw"⟩, ⟨"-1001", .formatted, msgEntrylong⟩] ∧
    normalizeDirection (jsGet payloadEntrylong "direction") = .ok "strategy.entrylong" ∧
    jsIncludes msgEntrylong "Buy BTCUSD" = false ∧
    jsIncludes msgEntrylong "*SL:* `60000`" = true ∧
    jsIncludes msgEntrylong "TP1" = false := by
  refine ⟨by decide, rfl, by decide, by decide, by decide⟩

/-- Filtering a one-kind broadcast for that same kind keeps all of it. -/
theorem filter_kind_map_self (k : SendKind) (cs : List String) (msg : String) :
    (cs.map (fun ch => (⟨ch, k, msg⟩ : Send))).filter (fun s => s.kind == k)
      = cs.map (fun ch => ⟨ch, k, msg⟩) := by
  induction cs with
  | nil => rfl
  | cons c cs ih => simp [ih]

/-- Filtering for one kind of send drops every send of another kind. -/
theorem filter_kind_nil_of (k : SendKind) (l : List Send) (h : ∀ s ∈ l, s.kind ≠ k) :
    l.filter (fun s => s.kind == k) = [] :=
  List.filter_eq_nil_iff.mpr (fun s hs => by simpa using h s hs)

/-- Every send of a one-kind broadcast has that kind. -/
theorem map_kind_mem (k : SendKind) (cs : List String) (msg : String) (s : Send)
    (hs : s ∈ cs.map (fun ch => (⟨ch, k, msg⟩ : Send))) : s.kind = k := by
  obtain ⟨ch, _, rfl⟩ := List.mem_map.mp hs
  rfl

/-- Every send of the catch block is an error notice. -/
theorem catchSends_kinds (config : Config) (e : String) (s : Send)
    (hs : s ∈ catchSends config e) : s.kind = SendKind.errorNote := by
  obtain ⟨ch, _, rfl⟩ := List.mem_map.mp hs
  rfl

/-- Every send produced by the structured step is a formatted send. -/
theorem structuredSends_kinds (config : Config) (data : JSValue) (ps : Bool) (fs : List Send)
    (h : structuredSends config data ps = .ok fs) (s : Send) (hs : s ∈ fs) :
    s.kind = SendKind.formatted := by
  unfold structuredSends at h
  split at h
  · split at h
    · exact Except.noConfusion h
    · split at h
      · split at h
        · exact Except.noConfusion h
        · split at h
          · rw [Except.ok.injEq] at h
            subst h
            obtain ⟨ch, _, rfl⟩ := List.mem_map.mp hs
            rfl
          · rw [Except.ok.injEq] at h
            subst h
            simp at hs
      · rw [Except.ok.injEq] at h
        subst h
        simp at hs
  · rw [Except.ok.injEq] at h
    subst h
    simp at hs

/-- C3: with `enabled=true` and a non-empty channel list, a webhook POST
whose request yields a raw body string issues exactly one raw-debug send
attempt per configured channel, carrying the raw body truncated to its
first 800 characters — whatever the payload is and whether or not it is
valid structured data. -/
theorem C3_raw_debug_per_channel (config : Config) (jsonParse : String → Option JSValue)
    (rawBodyField : Option String) (body : JSValue) (rawBody : String)
    (h1 : config.enabled = true) (_h2 : config.channels ≠ [])
    (h3 : effectiveRawBody rawBodyField body = some rawBody) :
    (webhookHandler config jsonParse rawBodyField body).1.filter
        (fun s => s.kind == SendKind.rawDebug)
      = config.channels.map (fun ch => ⟨ch, SendKind.rawDebug, rawMessage rawBody⟩) := by
  unfold webhookHandler
  rw [h1, h3]
  simp only [Bool.not_true, Bool.false_eq_true, if_false]
  cases hss : structuredSends config (parseBody jsonParse body).1 (parseBody jsonParse body).2 with
  | ok fs =>
    simp only [hss]
    rw [List.filter_append, filter_kind_map_self,
        filter_kind_nil_of _ fs (fun s hs => by
          rw [structuredSends_kinds config _ _ fs hss s hs]
          simp),
        List.append_nil]
  | error e =>
    simp only [hss]
    rw [List.filter_append, filter_kind_map_self,
        filter_kind_nil_of _ _ (fun s hs => by
          rw [catchSends_kinds config e s hs]
          simp),
        List.append_nil]

/-- Witness for C3, at an enabled two-channel configuration and a body
that is not valid structured data. -/
theorem C3_raw_debug_per_channel_witness :
    (Config.mk true ["a", "b"]).enabled = true ∧
    (Config.mk true ["a", "b"]).channels ≠ [] ∧
    effectiveRawBody (none : Option String) (.str "not json") = some "not json" ∧
    (webhookHandler ⟨true, ["a", "b"]⟩ (fun _ => none) none (.str "not json")).1.filter
        (fun s => s.kind == SendKind.rawDebug)
      = [⟨"a", SendKind.rawDebug, rawMessage "not json"⟩,
         ⟨"b", SendKind.rawDebug, rawMessage "not json"⟩] :=
  ⟨rfl, by decide, rfl,
   C3_raw_debug_per_channel ⟨true, ["a", "b"]⟩ (fun _ => none) none (.str "not json")
     "not json" rfl (by decide) rfl⟩

/-- The structured step on a non-empty object payload whose `direction`
normalises without throwing: the formatted broadcast happens exactly when
one of the identifying fields is truthy. -/
theorem structuredSends_obj (config : Config) (fields : List (String × JSValue)) (dir : String)
    (h4 : fields ≠ [])
    (h5 : normalizeDirection (jsGet (.obj fields) "direction") = .ok dir) :
    structuredSends config (.obj fields) true
      = .ok (if meaningfulData (.obj fields) then
              config.channels.map
                (fun ch => ⟨ch, SendKind.formatted, formattedMessage (.obj fields) dir⟩)
             else []) := by
  unfold structuredSends
  simp only [objectKeys, if_true]
  rw [if_pos, h5]
  · cases hm : meaningfulData (.obj fields) <;> simp [hm]
  · simpa [List.length_pos] using h4

/-- C4 counterexample: the payload `\x7b"ticker":""\x7d` is a non-empty
mapping in which `ticker` is present, yet the handler issues no formatted
send (line 180 tests truthiness, and `""` is falsy): only the raw-debug
send happens. -/
theorem C4_counterexample :
    isDefined (jsGet (.obj [("ticker", .str "")]) "ticker") = true ∧
    (parseBody (fun _ => none) (.obj [("ticker", .str "")])).2 = true ∧
    (webhookHandler ⟨true, ["c1"]⟩ (fun _ => none) (some "x") (.obj [("ticker", .str "")])).1
      = [⟨"c1", SendKind.rawDebug, rawMessage "x"⟩] ∧
    (webhookHandler ⟨true, ["c1"]⟩ (fun _ => none) (some "x") (.obj [("ticker", .str "")])).1.filter
        (fun s => s.kind == SendKind.formatted) = [] := by
  refine ⟨rfl, rfl, by decide, by decide⟩

/-- C4 (amended): for an enabled request whose body parses to a non-empty
object — provided a truthy `direction` value is a string, so the
normalisation does not throw — exactly one formatted send attempt per
configured channel is issued when at least one of `ticker`, `direction`,
`symbol` is present with a truthy value, and none when all three are
absent or falsy (in which case only the raw-debug sends happen). -/
theorem C4_formatted_iff_truthy_field (config : Config)
    (jsonParse : String → Option JSValue) (rawBodyField : Option String) (body : JSValue)
    (fields : List (String × JSValue)) (rawBody : String) (dir : String)
    (h1 : config.enabled = true)
    (h2 : effectiveRawBody rawBodyField body = some rawBody)
    (h3 : parseBody jsonParse body = (.obj fields, true))
    (h4 : fields ≠ [])
    (h5 : normalizeDirection (jsGet (.obj fields) "direction") = .ok dir) :
    (webhookHandler config jsonParse rawBodyField body).1
      = config.channels.map (fun ch => ⟨ch, SendKind.rawDebug, rawMessage rawBody⟩)
        ++ (if meaningfulData (.obj fields) then
              config.channels.map
                (fun ch => ⟨ch, SendKind.formatted, formattedMessage (.obj fields) dir⟩)
            else []) := by
  unfold webhookHandler
  rw [h1, h2]
  simp only [Bool.not_true, Bool.false_eq_true, if_false, h3]
  rw [structuredSends_obj config fields dir h4 h5]

/-- Witness for C4, exercising both halves: a payload with a truthy
`ticker` gets exactly one formatted send on the single channel, and a
payload whose only identifying field is falsy gets none. -/
theorem C4_formatted_iff_truthy_field_witness :
    (webhookHandler ⟨true, ["c1"]⟩ (fun _ => none) (some "x") (.obj [("ticker", .str "BTC")])).1
      = [⟨"c1", SendKind.rawDebug, rawMessage "x"⟩]
        ++ (if meaningfulData (.obj [("ticker", .str "BTC")]) then
              [⟨"c1", SendKind.formatted, formattedMessage (.obj [("ticker", .str "BTC")]) "Signal"⟩]
            else []) ∧
    meaningfulData (.obj [("ticker", .str "BTC")]) = true :=
  ⟨C4_formatted_iff_truthy_field ⟨true, ["c1"]⟩ (fun _ => none) (some "x")
      (.obj [("ticker", .str "BTC")]) [("ticker", .str "BTC")] "x" "Signal"
      rfl rfl rfl (List.cons_ne_nil _ _) rfl,
   by decide⟩

/-- C7: for an authorized sender and any `/addchannel` text carrying an
argument, running the command twice (the first call's store write
succeeding — normal store operation) leaves the stored channel list after
the second call equal to the list after the first call, and the second
call replies "already present" without ever reaching `saveConfig` (so for
any write outcome of the second call) — `addchannel` is idempotent. -/
theorem C7_addchannel_idempotent (adminIds : List String) (userId : String) (text : String)
    (config : Config) (saveOk2 : Bool)
    (h1 : adminIds.contains userId = true)
    (h2 : 2 ≤ (jsSplit text ' ').length) :
    (runCommand adminIds userId .addchannel text
        (runCommand adminIds userId .addchannel text (some config) true).store saveOk2).store
      = (runCommand adminIds userId .addchannel text (some config) true).store ∧
    (runCommand adminIds userId .addchannel text
        (runCommand adminIds userId .addchannel text (some config) true).store saveOk2).replies
      = ["ℹ️ Channel already in list."] := by
  have hlen : ¬ (jsSplit text ' ').length < 2 := Nat.not_lt.mpr h2
  unfold runCommand
  rw [h1]
  simp only [if_true, if_neg hlen]
  by_cases hm : (jsSplit text ' ')[1]?.getD "" ∈ config.channels
  · simp [hm]
  · simp [hm]

/-- Witness for C7: adding channel `-100123` twice starting from an empty
channel list (the second call's write outcome is irrelevant: `false`). -/
theorem C7_addchannel_idempotent_witness :
    (["7"].contains "7") = true ∧
    2 ≤ (jsSplit "/addchannel -100123" ' ').length ∧
    ((runCommand ["7"] "7" .addchannel "/addchannel -100123"
        (runCommand ["7"] "7" .addchannel "/addchannel -100123" (some ⟨true, []⟩) true).store
        false).store
      = (runCommand ["7"] "7" .addchannel "/addchannel -100123" (some ⟨true, []⟩) true).store ∧
     (runCommand ["7"] "7" .addchannel "/addchannel -100123"
        (runCommand ["7"] "7" .addchannel "/addchannel -100123" (some ⟨true, []⟩) true).store
        false).replies
      = ["ℹ️ Channel already in list."]) :=
  ⟨by decide, by decide,
   C7_addchannel_idempotent ["7"] "7" "/addchannel -100123" ⟨true, []⟩ false
     (by decide) (by decide)⟩

/-- C8 counterexample: two authorized `/on` invocations that fail
silently.  With an unreadable configuration store `getConfig()` throws
before any reply; with a readable store but a failing `fs.writeFileSync`,
`saveConfig` throws after the load and still before any reply.  The
handlers have no catch, so in both cases the sender receives nothing —
contradicting "the sender receives a reply ... the system never fails
silently toward an interactive admin". -/
theorem C8_counterexample :
    (["42"].contains "42") = true ∧
    runCommand ["42"] "42" .on "/on" none true = ⟨none, [], true⟩ ∧
    runCommand ["42"] "42" .on "/on" (some ⟨false, []⟩) false
      = ⟨some ⟨false, []⟩, [], true⟩ := by
  refine ⟨by decide, by decide, by decide⟩

/-- Whenever a command handler throws (unreadable store, or a failing
store write in a mutating command), it does so before `ctx.reply`: the
throw is always silent toward the sender. -/
theorem runCommand_threw_silent (adminIds : List String) (userId : String) (cmd : Cmd)
    (text : String) (store : Option Config) (saveOk : Bool) :
    (runCommand adminIds userId cmd text store saveOk).threw = true →
    (runCommand adminIds userId cmd text store saveOk).replies = [] := by
  unfold runCommand
  by_cases h : adminIds.contains userId
  · rw [if_pos h]
    cases cmd
    · cases store
      · exact fun _ => rfl
      · cases saveOk
        · exact fun _ => rfl
        · exact fun ht => Bool.noConfusion ht
    · cases store
      · exact fun _ => rfl
      · cases saveOk
        · exact fun _ => rfl
        · exact fun ht => Bool.noConfusion ht
    · simp only []
      by_cases hl : (jsSplit text ' ').length < 2
      · rw [if_pos hl]
        exact fun ht => Bool.noConfusion ht
      · rw [if_neg hl]
        cases store with
        | none => exact fun _ => rfl
        | some config =>
          simp only []
          by_cases hb : (!config.channels.contains ((jsSplit text ' ').getD 1 "")) = true
          · rw [if_pos hb]
            cases saveOk
            · exact fun _ => rfl
            · exact fun ht => Bool.noConfusion ht
          · rw [if_neg hb]
            exact fun ht => Bool.noConfusion ht
    · simp only []
      by_cases hl : (jsSplit text ' ').length < 2
      · rw [if_pos hl]
        exact fun ht => Bool.noConfusion ht
      · rw [if_neg hl]
        cases store with
        | none => exact fun _ => rfl
        | some config =>
          cases saveOk
          · exact fun _ => rfl
          · exact fun ht => Bool.noConfusion ht
    · cases store
      · exact fun _ => rfl
      · exact fun ht => Bool.noConfusion ht
  · rw [if_neg h]
    exact fun ht => Bool.noConfusion ht

/-- C8 (amended): for every authorized command invocation in which the
configuration store loads successfully and any store write the command
performs succeeds, the handler does not throw and the sender receives at
least one reply (success, "already present", usage hint, or the rendered
list); when loading fails — or a mutating command's save fails — the
handler throws before any reply, so the sender receives nothing and the
silent-failure guarantee does not extend to those cases. -/
theorem C8_replies_when_store_ok (adminIds : List String) (userId : String) (cmd : Cmd)
    (text : String) (config : Config) (store : Option Config) (saveOk : Bool)
    (h1 : adminIds.contains userId = true) :
    ((runCommand adminIds userId cmd text (some config) true).threw = false ∧
     (runCommand adminIds userId cmd text (some config) true).replies ≠ []) ∧
    ((runCommand adminIds userId cmd text store saveOk).threw = true →
     (runCommand adminIds userId cmd text store saveOk).replies = []) := by
  constructor
  · unfold runCommand
    rw [h1]
    cases cmd
    · exact ⟨rfl, by simp⟩
    · exact ⟨rfl, by simp⟩
    · simp only [if_true]
      split
      · exact ⟨rfl, by simp⟩
      · split
        · exact ⟨rfl, by simp⟩
        · exact ⟨rfl, by simp⟩
    · simp only [if_true]
      split
      · exact ⟨rfl, by simp⟩
      · exact ⟨rfl, by simp⟩
    · exact ⟨rfl, by simp⟩
  · exact runCommand_threw_silent adminIds userId cmd text store saveOk

/-- Witness for C8: an authorized `/on` replies when load and save
succeed, and its save-failure run (which throws) produces no reply. -/
theorem C8_replies_when_store_ok_witness :
    (["9"].contains "9") = true ∧
    (((runCommand ["9"] "9" .on "/on" (some ⟨false, ["a"]⟩) true).threw = false ∧
      (runCommand ["9"] "9" .on "/on" (some ⟨false, ["a"]⟩) true).replies ≠ []) ∧
     ((runCommand ["9"] "9" .on "/on" (some ⟨false, ["a"]⟩) false).threw = true →
      (runCommand ["9"] "9" .on "/on" (some ⟨false, ["a"]⟩) false).replies = [])) :=
  ⟨by decide,
   C8_replies_when_store_ok ["9"] "9" .on "/on" ⟨false, ["a"]⟩ (some ⟨false, ["a"]⟩) false
     (by decide)⟩

/-- The structured step on a non-empty object payload whose `direction`
normalisation throws propagates exactly that error. -/
theorem structuredSends_obj_error (config : Config) (fields : List (String × JSValue))
    (e : String) (h4 : fields ≠ [])
    (h5 : normalizeDirection (jsGet (.obj fields) "direction") = .error e) :
    structuredSends config (.obj fields) true = .error e := by
  unfold structuredSends
  simp only [objectKeys, if_true]
  rw [if_pos, h5]
  · simpa [List.length_pos] using h4

/-- C9: an enabled request whose body parses to a non-empty mapping with a
truthy non-string `direction` (e.g. a number) makes the handler throw at
`data.direction.toUpperCase()`: it responds HTTP 500
("Internal Error"), after the raw-debug send per channel was already
attempted, followed by the catch block's error notices. -/
theorem C9_direction_typeerror (config : Config) (jsonParse : String → Option JSValue)
    (rawBodyField : Option String) (body : JSValue)
    (fields : List (String × JSValue)) (rawBody : String) (v : JSValue)
    (h1 : config.enabled = true)
    (h2 : effectiveRawBody rawBodyField body = some rawBody)
    (h3 : parseBody jsonParse body = (.obj fields, true))
    (h4 : fields ≠ [])
    (h5 : jsGet (.obj fields) "direction" = v)
    (h6 : truthy v = true)
    (h7 : ∀ s, v ≠ .str s) :
    webhookHandler config jsonParse rawBodyField body
      = (config.channels.map (fun ch => ⟨ch, SendKind.rawDebug, rawMessage rawBody⟩)
           ++ catchSends config "data.direction.toUpperCase is not a function",
         .internalError) ∧
    (webhookHandler config jsonParse rawBodyField body).2.statusCode = 500 := by
  have hnorm : normalizeDirection (jsGet (.obj fields) "direction")
      = .error "data.direction.toUpperCase is not a function" := by
    rw [h5]
    unfold normalizeDirection
    rw [if_pos h6]
    cases v with
    | str s => exact absurd rfl (h7 s)
    | undefined => rfl
    | null => rfl
    | bool b => rfl
    | num n => rfl
    | obj fs => rfl
    | arr es => rfl
  have herr := structuredSends_obj_error config fields _ h4 hnorm
  have hmain : webhookHandler config jsonParse rawBodyField body
      = (config.channels.map (fun ch => ⟨ch, SendKind.rawDebug, rawMessage rawBody⟩)
           ++ catchSends config "data.direction.toUpperCase is not a function",
         .internalError) := by
    unfold webhookHandler
    rw [h1, h2]
    simp only [Bool.not_true, Bool.false_eq_true, if_false, h3]
    rw [herr]
  refine ⟨hmain, ?_⟩
  rw [hmain]
  rfl

/-- Witness for C9: `direction` bound to the number `5`. -/
theorem C9_direction_typeerror_witness :
    webhookHandler ⟨true, ["c"]⟩ (fun _ => none) (some "r") (.obj [("direction", .num 5)])
      = ([⟨"c", SendKind.rawDebug, rawMessage "r"⟩]
           ++ catchSends ⟨true, ["c"]⟩ "data.direction.toUpperCase is not a function",
         .internalError) ∧
    (webhookHandler ⟨true, ["c"]⟩ (fun _ => none) (some "r") (.obj [("direction", .num 5)])).2.statusCode
      = 500 :=
  C9_direction_typeerror ⟨true, ["c"]⟩ (fun _ => none) (some "r") (.obj [("direction", .num 5)])
    [("direction", .num 5)] "r" (.num 5) rfl rfl rfl (List.cons_ne_nil _ _) rfl rfl
    (fun _ h => JSValue.noConfusion h)

/-- C10 counterexample: an enabled request with an empty channel list but
a payload whose `direction` is a truthy number: zero sends are attempted,
yet the response is HTTP 500, not the claimed
200 "Signal sent to 0 channels". -/
theorem C10_counterexample :
    webhookHandler ⟨true, []⟩ (fun _ => none) (some "x") (.obj [("direction", .num 1)])
      = ([], .internalError) ∧
    (webhookHandler ⟨true, []⟩ (fun _ => none) (some "x") (.obj [("direction", .num 1)])).2.statusCode
      = 500 := by
  refine ⟨by decide, by decide⟩

/-- When every exception source of the structured step resolves (the keys
enumeration and the direction normalisation), the step returns formatted
sends that are empty whenever the channel list is. -/
theorem structuredSends_total (config : Config) (data : JSValue) (ps : Bool)
    (keys : List String) (dir : String)
    (h4 : objectKeys data = .ok keys)
    (h5 : normalizeDirection (jsGet data "direction") = .ok dir) :
    ∃ fs, structuredSends config data ps = .ok fs ∧ (config.channels = [] → fs = []) := by
  unfold structuredSends
  cases ps with
  | false => exact ⟨[], rfl, fun _ => rfl⟩
  | true =>
    rw [h4]
    simp only [if_true]
    by_cases hk : keys.length > 0
    · rw [if_pos hk, h5]
      cases hmv : meaningfulData data
      · exact ⟨[], rfl, fun _ => rfl⟩
      · exact ⟨_, rfl, fun hc => by rw [hc]; rfl⟩
    · rw [if_neg hk]
      exact ⟨[], rfl, fun _ => rfl⟩

/-- C10 (amended): an enabled request with an empty channel list performs
zero send attempts and responds HTTP 200 "Signal sent to 0 channels",
provided the structured processing does not throw (the parsed value has
enumerable keys and any truthy `direction` is a string); a throwing
payload instead yields HTTP 500 with still zero sends. -/
theorem C10_empty_channels_zero_sends (config : Config) (jsonParse : String → Option JSValue)
    (rawBodyField : Option String) (body : JSValue)
    (rawBody : String) (keys : List String) (dir : String)
    (h1 : config.enabled = true)
    (h2 : config.channels = [])
    (h3 : effectiveRawBody rawBodyField body = some rawBody)
    (h4 : objectKeys (parseBody jsonParse body).1 = .ok keys)
    (h5 : normalizeDirection (jsGet (parseBody jsonParse body).1 "direction") = .ok dir) :
    webhookHandler config jsonParse rawBodyField body
      = ([], .success "Signal sent to 0 channels") := by
  obtain ⟨fs, hss, hnil⟩ :=
    structuredSends_total config (parseBody jsonParse body).1 (parseBody jsonParse body).2
      keys dir h4 h5
  unfold webhookHandler
  rw [h1, h3]
  simp only [Bool.not_true, Bool.false_eq_true, if_false, hss]
  rw [h2, hnil h2]
  rfl

/-- Witness for C10: an enabled empty-channel configuration and a plain
object payload. -/
theorem C10_empty_channels_zero_sends_witness :
    webhookHandler ⟨true, []⟩ (fun _ => none) (some "x") (.obj [("ticker", .str "BTC")])
      = ([], .success "Signal sent to 0 channels") :=
  C10_empty_channels_zero_sends ⟨true, []⟩ (fun _ => none) (some "x")
    (.obj [("ticker", .str "BTC")]) "x" ["ticker"] "Signal" rfl rfl rfl rfl rfl
